import Mathlib

/-!
Shallow embedding of the sozu session multiplexer
(`src/lib/src/protocol/mux/mod.rs`) and proofs about the claims of its
specification.  Pure data and control flow are translated directly from the
Rust source; external capabilities (sockets, the HTTP/1 parser of the kawa
crate, the HPACK decoder) are passed in as explicit arguments or oracle
functions; Rust panics (`panic!`, `todo!`, `unreachable!`, out-of-bounds
indexing) are modelled as `Except.error`.
-/

namespace Mux

/-- Modelled from the spec: the `Ready` bitmask of the `sozu_command::ready`
crate, which is not part of the provided sources.  Per §6 it is a bitmask
with bits READABLE, WRITABLE, HUP, ERROR, supporting union and removal. -/
structure RBits where
  readable : Bool
  writable : Bool
  hup : Bool
  err : Bool
deriving DecidableEq, Repr

def RBits.empty : RBits := ⟨false, false, false, false⟩

def RBits.inter (a b : RBits) : RBits :=
  ⟨a.readable && b.readable, a.writable && b.writable, a.hup && b.hup, a.err && b.err⟩

def RBits.removeReadable (a : RBits) : RBits := { a with readable := false }
def RBits.removeWritable (a : RBits) : RBits := { a with writable := false }
def RBits.insertReadable (a : RBits) : RBits := { a with readable := true }
def RBits.insertWritable (a : RBits) : RBits := { a with writable := true }

/-- Modelled from the spec: a connection's readiness, an `interest` mask and
an `event` mask; effective readiness is their intersection
(`filter_interest`). -/
structure Readiness where
  interest : RBits
  event : RBits
deriving DecidableEq, Repr

/-- `Readiness::filter_interest`: effective readiness = interest ∧ event. -/
def Readiness.filterInterest (r : Readiness) : RBits :=
  r.interest.inter r.event

inductive SessionResult where
  | Continue
  | Close
deriving DecidableEq, Repr

/-- How a run of `Mux::ready` ended: frontend HUP at entry, the iteration
cap, a backend reporting HUP or ERROR, or a pass that did no work. -/
inductive ReadyExit where
  | frontHup
  | cap
  | backendClose
  | quiesce
deriving DecidableEq, Repr

/-- The observable outcome of one `Mux::ready` invocation: the final system
state, the returned `SessionResult`, the number of increments of the
`http.infinite_loop.error` counter, and the number of loop iterations
(invocations of the loop body). -/
structure ReadyOutcome (σ : Type) where
  state : σ
  result : SessionResult
  infiniteLoopIncr : Nat
  iterations : Nat
  exitKind : ReadyExit

/-- The readiness loop of `Mux::ready` is generic in what the per-connection
`readable`/`writable` calls do to the system: this record packages the
frontend readiness accessor, the set of backend tokens, the backend
readiness accessors, and the four work functions, each an arbitrary state
transformer, exactly the interface the loop body of `Mux::ready` uses. -/
structure LoopModel (σ : Type) where
  frontReadiness : σ → Readiness
  backendTokens : List Nat
  backendReadiness : Nat → σ → Readiness
  frontReadable : σ → σ
  frontWritable : σ → σ
  backendReadable : Nat → σ → σ
  backendWritable : Nat → σ → σ

variable {σ : Type}

/-- One pass of the loop body of `Mux::ready` (lines 273-295): frontend
readable, then for each backend writable then readable, then frontend
writable; returns the new state and the `dirty` flag. -/
def muxPass (m : LoopModel σ) (s : σ) : σ × Bool :=
  let sd :=
    if ((m.frontReadiness s).filterInterest).readable then
      (m.frontReadable s, true)
    else (s, false)
  let sd := m.backendTokens.foldl
    (fun sd t =>
      let sd :=
        if ((m.backendReadiness t sd.1).filterInterest).writable then
          (m.backendWritable t sd.1, true)
        else sd
      if ((m.backendReadiness t sd.1).filterInterest).readable then
        (m.backendReadable t sd.1, true)
      else sd)
    sd
  if ((m.frontReadiness sd.1).filterInterest).writable then
    (m.frontWritable sd.1, true)
  else sd

/-- The backend HUP/ERROR check at the end of each pass (lines 297-303). -/
def backendsBad (m : LoopModel σ) (s : σ) : Bool :=
  m.backendTokens.any fun t =>
    ((m.backendReadiness t s).filterInterest).hup
      || ((m.backendReadiness t s).filterInterest).err

/-- The `while counter < max_loop_iterations` loop of `Mux::ready`, by fuel:
fuel `n` means `max_loop_iterations - counter` remaining iterations.  At
fuel 0 the source reaches `counter == max_loop_iterations`, increments
`http.infinite_loop.error` and returns `Close`. -/
def muxLoop (m : LoopModel σ) : Nat → σ → ReadyOutcome σ
  | 0, s => ⟨s, .Close, 1, 0, .cap⟩
  | n + 1, s =>
    let sd := muxPass m s
    if backendsBad m sd.1 then
      ⟨sd.1, .Close, 0, 1, .backendClose⟩
    else if sd.2 then
      let o := muxLoop m n sd.1
      ⟨o.state, o.result, o.infiniteLoopIncr, o.iterations + 1, o.exitKind⟩
    else
      ⟨sd.1, .Continue, 0, 1, .quiesce⟩

/-- `Mux::ready` (lines 257-318): return `Close` at once if the frontend
event mask has HUP; otherwise run the bounded readiness loop. -/
def muxReady (m : LoopModel σ) (s : σ) : ReadyOutcome σ :=
  if ((m.frontReadiness s).event).hup then
    ⟨s, .Close, 0, 0, .frontHup⟩
  else
    muxLoop m 100000 s

/-! ### Buffers, streams and the stream table -/

/-- The storage of a kawa buffer, abstracted to the operations the mux uses:
`data` is the filled, unconsumed byte span; `space` is free capacity (the
pool regions are large enough for every message of this development, so
capacity is not tracked); `fill` appends, `clear` empties, `consume` drops
from the front. -/
structure Storage where
  data : List Nat
deriving DecidableEq, Repr

def Storage.fill (st : Storage) (bytes : List Nat) : Storage :=
  ⟨st.data ++ bytes⟩

def Storage.clear (_ : Storage) : Storage := ⟨[]⟩

def Storage.availableData (st : Storage) : Nat := st.data.length

def Storage.consume (st : Storage) (n : Nat) : Storage := ⟨st.data.drop n⟩

def Storage.isEmpty (st : Storage) : Bool := st.data.isEmpty

inductive KawaKind where
  | Request
  | Response
deriving DecidableEq, Repr

/-- `GenericHttpStream = kawa::Kawa<Checkout>`: an HTTP message buffer of
the external kawa crate, abstracted to its storage, its kind and the
`is_terminated` flag of its parsing state, which is all the mux reads. -/
structure Kawa where
  kind : KawaKind
  storage : Storage
  terminated : Bool
deriving DecidableEq, Repr

def Kawa.new (kind : KawaKind) : Kawa := ⟨kind, ⟨[]⟩, false⟩

inductive Position where
  | Client
  | Server
deriving DecidableEq, Repr

/-- A per-exchange `Stream`: identifier, signed 32-bit flow-control window,
request buffer `front`, response buffer `back`. -/
structure Stream where
  request_id : Nat
  window : Int
  front : Kawa
  back : Kawa
deriving DecidableEq, Repr

/-- `Stream::front`: the read-target buffer for the given position. -/
def Stream.frontBuf (s : Stream) (p : Position) : Kawa :=
  match p with
  | .Client => s.back
  | .Server => s.front

def Stream.setFrontBuf (s : Stream) (p : Position) (k : Kawa) : Stream :=
  match p with
  | .Client => { s with back := k }
  | .Server => { s with front := k }

/-- Rust `u32 as i32`: two's-complement reinterpretation. -/
def u32AsI32 (n : Nat) : Int :=
  if n % 4294967296 < 2147483648 then ((n % 4294967296 : Nat) : Int)
  else ((n % 4294967296 : Nat) : Int) - 4294967296

/-- Rust release-mode `i32` addition: wraparound on overflow. -/
def i32WrapAdd (a b : Int) : Int :=
  (a + b + 2147483648) % 4294967296 - 2147483648

/-- The buffer pool, seen through its capability interface (§6): `checkout`
yields a region while capacity remains, and a checked-out region returns to
the pool when dropped. -/
structure Pool where
  available : Nat
deriving DecidableEq, Repr

/-- `Pool::checkout`: `Some` region while capacity remains. -/
def Pool.checkout (p : Pool) : Option Unit × Pool :=
  match p.available with
  | 0 => (none, p)
  | n + 1 => (some (), ⟨n⟩)

/-- Dropping a `Checkout` returns its region to the pool. -/
def Pool.release (p : Pool) : Pool := ⟨p.available + 1⟩

inductive AcceptError where
  | BufferCapacityReached
deriving DecidableEq, Repr

/-- The stream table: the stream vector and the weak pool reference
(`Weak<RefCell<Pool>>`), `none` when the pool can no longer be upgraded. -/
structure Streams where
  streams : List Stream
  pool : Option Pool
deriving DecidableEq, Repr

/-- `Streams::create_stream` (lines 210-233): upgrade the weak pool
reference, check out a front and a back region, and on success push a new
`Stream` and return its index; on failure any checked-out region is dropped
back into the pool and `BufferCapacityReached` is returned. -/
def Streams.create_stream (ss : Streams) (request_id : Nat) (window : Nat) :
    Except AcceptError Nat × Streams :=
  match ss.pool with
  | none => (.error .BufferCapacityReached, ss)
  | some pool =>
    let fb := pool.checkout
    let bb := fb.2.checkout
    match fb.1, bb.1 with
    | some _, some _ =>
      let streams := ss.streams ++
        [{ request_id, window := u32AsI32 window,
           front := Kawa.new .Request, back := Kawa.new .Response }]
      (.ok (streams.length - 1), { streams, pool := some bb.2 })
    | some _, none =>
      (.error .BufferCapacityReached, { ss with pool := some bb.2.release })
    | none, some _ =>
      (.error .BufferCapacityReached, { ss with pool := some bb.2.release })
    | none, none =>
      (.error .BufferCapacityReached, { ss with pool := some bb.2 })

/-! ### H2 frame codec

The source declares `mod parser;` and `mod serializer;` but those files are
not part of the provided sources, so the codec is modelled from the spec. -/

inductive FrameType where
  | Data
  | Headers
  | Priority
  | RstStream
  | Settings
  | PushPromise
  | Ping
  | GoAway
  | WindowUpdate
  | Continuation
deriving DecidableEq, Repr

/-- Modelled from the spec: the 9-octet H2 frame header
`(length:24, type:8, flags:8, R:1, stream_id:31)` (§6). -/
structure FrameHeader where
  payload_len : Nat
  frame_type : FrameType
  flags : Nat
  stream_id : Nat
deriving DecidableEq, Repr

structure SettingsEntry where
  identifier : Nat
  value : Nat
deriving DecidableEq, Repr

structure WindowUpdateFrame where
  stream_id : Nat
  increment : Nat
deriving DecidableEq, Repr

/-- Modelled from the spec: the typed frame bodies of `parser::Frame`
(§6 lists the ten frame kinds; bodies beyond SETTINGS and WINDOW_UPDATE are
represented by their target stream where the mux uses one). -/
inductive Frame where
  | Data (streamId : Nat)
  | Headers (streamId : Nat)
  | Priority
  | RstStream (streamId : Nat)
  | Settings (entries : List SettingsEntry)
  | PushPromise
  | Ping (payload : Nat)
  | GoAway
  | WindowUpdate (u : WindowUpdateFrame)
  | Continuation
deriving DecidableEq, Repr

/-- Modelled from the spec: the canonical 24-byte H2 connection preface
`PRI * HTTP/2.0\r\n\r\nSM\r\n\r\n` (§6). -/
def prefaceBytes : List Nat :=
  [80, 82, 73, 32, 42, 32, 72, 84, 84, 80, 47, 50, 46, 48,
   13, 10, 13, 10, 83, 77, 13, 10, 13, 10]

/-- Modelled from the spec: `parser::preface` accepts exactly the canonical
preface bytes and yields the remaining input. -/
def preface (i : List Nat) : Except String (List Nat) :=
  if i.take 24 = prefaceBytes then .ok (i.drop 24) else .error "invalid preface"

def frameTypeOfByte : Nat → Except String FrameType
  | 0 => .ok .Data
  | 1 => .ok .Headers
  | 2 => .ok .Priority
  | 3 => .ok .RstStream
  | 4 => .ok .Settings
  | 5 => .ok .PushPromise
  | 6 => .ok .Ping
  | 7 => .ok .GoAway
  | 8 => .ok .WindowUpdate
  | 9 => .ok .Continuation
  | _ => .error "unknown frame type"

def frameTypeByte : FrameType → Nat
  | .Data => 0
  | .Headers => 1
  | .Priority => 2
  | .RstStream => 3
  | .Settings => 4
  | .PushPromise => 5
  | .Ping => 6
  | .GoAway => 7
  | .WindowUpdate => 8
  | .Continuation => 9

/-- Modelled from the spec: `parser::frame_header` reads the 9-octet frame
header, masking the reserved bit off the 31-bit stream id, and yields the
remaining input alongside the header. -/
def frame_header : List Nat → Except String (List Nat × FrameHeader)
  | b0 :: b1 :: b2 :: b3 :: b4 :: b5 :: b6 :: b7 :: b8 :: rest =>
    match frameTypeOfByte b3 with
    | .ok t =>
      .ok (rest,
        { payload_len := (b0 * 256 + b1) * 256 + b2
          frame_type := t
          flags := b4
          stream_id := ((b5 % 128 * 256 + b6) * 256 + b7) * 256 + b8 })
    | .error e => .error e
  | _ => .error "frame header too short"

/-- Modelled from the spec: the SETTINGS body is a sequence of
`(id:16, value:32)` entries (§6). -/
def settingsEntries : List Nat → Except String (List SettingsEntry)
  | [] => .ok []
  | b0 :: b1 :: b2 :: b3 :: b4 :: b5 :: rest =>
    match settingsEntries rest with
    | .ok es =>
      .ok ({ identifier := b0 * 256 + b1
             value := ((b2 * 256 + b3) * 256 + b4) * 256 + b5 } :: es)
    | .error e => .error e
  | _ => .error "invalid settings payload"

/-- Modelled from the spec: `parser::settings_frame` parses a SETTINGS body
of the announced length. -/
def settings_frame (i : List Nat) (len : Nat) : Except String Frame :=
  if i.length = len then
    match settingsEntries i with
    | .ok es => .ok (.Settings es)
    | .error e => .error e
  else .error "settings length mismatch"

/-- Modelled from the spec: `parser::frame_body` parses a frame body per its
header's type; a payload larger than the negotiated `max_frame_size` is a
connection error (§4.3). -/
def frame_body (i : List Nat) (h : FrameHeader) (maxFrameSize : Nat) :
    Except String Frame :=
  if h.payload_len > maxFrameSize then .error "frame too large"
  else
    match h.frame_type with
    | .Data => .ok (.Data h.stream_id)
    | .Headers => .ok (.Headers h.stream_id)
    | .Priority => .ok .Priority
    | .RstStream => .ok (.RstStream h.stream_id)
    | .Settings => settings_frame i h.payload_len
    | .PushPromise => .ok .PushPromise
    | .Ping => .ok (.Ping 0)
    | .GoAway => .ok .GoAway
    | .WindowUpdate =>
      match i with
      | [b0, b1, b2, b3] =>
        .ok (.WindowUpdate
          { stream_id := h.stream_id
            increment := ((b0 % 128 * 256 + b1) * 256 + b2) * 256 + b3 })
      | _ => .error "invalid window update payload"
    | .Continuation => .ok .Continuation

/-- Modelled from the spec: `serializer::gen_frame_header` emits the
9-octet wire form of a frame header (§6). -/
def gen_frame_header (h : FrameHeader) : List Nat :=
  [h.payload_len / 65536 % 256, h.payload_len / 256 % 256, h.payload_len % 256,
   frameTypeByte h.frame_type, h.flags % 256,
   h.stream_id / 16777216 % 128, h.stream_id / 65536 % 256,
   h.stream_id / 256 % 256, h.stream_id % 256]

/-! ### The H2 engine -/

/-- `H2Settings` with its `Default` instance values (lines 52-73). -/
structure H2Settings where
  settings_header_table_size : Nat := 4096
  settings_enable_push : Bool := true
  settings_max_concurrent_streams : Nat := 4294967295
  settings_initial_window_size : Nat := 65535
  settings_max_frame_size : Nat := 16384
  settings_max_header_list_size : Nat := 4294967295
deriving DecidableEq, Repr

/-- `H2State` (lines 42-50). -/
inductive H2State where
  | ClientPreface
  | ClientSettings
  | ServerSettings
  | Header
  | Frame (h : FrameHeader)
  | Error
deriving DecidableEq, Repr

/-- `ConnectionH2` (lines 75-84), with the socket and the HPACK decoder
abstracted away (socket input arrives as an explicit argument; the decoder
is external state the mux only feeds).  `streams` is the wire-id → global
index map. -/
structure ConnectionH2 where
  expect : Option (Nat × Nat)
  position : Position
  readiness : Readiness
  settings : H2Settings
  state : H2State
  streams : List (Nat × Nat)
deriving DecidableEq, Repr

/-- One iteration of the `for setting in settings.settings` loop of
`ConnectionH2::handle` (lines 548-558): identifiers 1..=6 update the
corresponding field, any other identifier panics. -/
def applySetting (s : H2Settings) (e : SettingsEntry) : Except String H2Settings :=
  match e.identifier with
  | 1 => .ok { s with settings_header_table_size := e.value }
  | 2 => .ok { s with settings_enable_push := e.value == 1 }
  | 3 => .ok { s with settings_max_concurrent_streams := e.value }
  | 4 => .ok { s with settings_initial_window_size := e.value }
  | 5 => .ok { s with settings_max_frame_size := e.value }
  | 6 => .ok { s with settings_max_header_list_size := e.value }
  | _ => .error "setting_id"

def applySettings (s : H2Settings) : List SettingsEntry → Except String H2Settings
  | [] => .ok s
  | e :: es =>
    match applySetting s e with
    | .ok s => applySettings s es
    | .error msg => .error msg

/-- `ConnectionH2::handle` (lines 532-569).  HEADERS feeds the external
HPACK decoder and changes no mux state; WINDOW_UPDATE adds the increment,
cast `u32 as i32`, to `streams[stream_id].window` with release-mode
wraparound, indexing the stream vector directly by the wire stream id; most
other frame kinds are `todo!()` stubs, modelled as errors. -/
def ConnectionH2.handle (c : ConnectionH2) (frame : Frame) (ss : Streams) :
    Except String (ConnectionH2 × Streams) :=
  match frame with
  | .Data _ => .error "todo: Data"
  | .Headers _ =>
    if 0 < ss.streams.length then .ok (c, ss) else .error "index out of bounds"
  | .Priority => .error "todo: Priority"
  | .RstStream _ => .error "todo: RstStream"
  | .Settings entries =>
    match applySettings c.settings entries with
    | .ok s => .ok ({ c with settings := s }, ss)
    | .error e => .error e
  | .PushPromise => .error "todo: PushPromise"
  | .Ping _ => .error "todo: Ping"
  | .GoAway => .error "todo: GoAway"
  | .WindowUpdate u =>
    match ss.streams[u.stream_id]? with
    | some s =>
      let s := { s with window := i32WrapAdd s.window (u32AsI32 u.increment) }
      .ok (c, { ss with streams := ss.streams.set u.stream_id s })
    | none => .error "index out of bounds"
  | .Continuation => .error "todo: Continuation"

/-- `ConnectionH2::create_stream` (lines 522-530): create a stream in the
table with the connection's initial window size and record the wire-id →
global-index mapping; a table failure is a `panic!`.  `rid` stands for the
generated `Ulid`. -/
def ConnectionH2.create_stream (c : ConnectionH2) (stream_id : Nat)
    (ss : Streams) (rid : Nat) : Except String (Nat × ConnectionH2 × Streams) :=
  match Streams.create_stream ss rid c.settings.settings_initial_window_size with
  | (.ok g, ss) => .ok (g, { c with streams := (stream_id, g) :: c.streams }, ss)
  | (.error _, _) => .error "BufferCapacityReached"

def defaultStream : Stream :=
  { request_id := 0, window := 0
    front := Kawa.new .Request, back := Kawa.new .Response }

/-- Read the buffer `streams[idx].front(position)` used by the state
machine of `ConnectionH2::readable`; the callers guarantee the index is in
range (out-of-range indexing in the source is a panic handled separately). -/
def getFrontBuf (ss : Streams) (idx : Nat) (p : Position) : Kawa :=
  ((ss.streams[idx]?).getD defaultStream).frontBuf p

/-- Write back the buffer `streams[idx].front(position)`. -/
def setFrontBuf (ss : Streams) (idx : Nat) (p : Position) (k : Kawa) : Streams :=
  match ss.streams[idx]? with
  | some s => { ss with streams := ss.streams.set idx (s.setFrontBuf p k) }
  | none => ss

/-- The state-machine match of `ConnectionH2::readable` (lines 383-494),
entered once the expectation is fully satisfied; `idx` is the global index
the expectation named and `rid` the `Ulid` a stream creation would use.
`error!` logging branches do nothing; `panic!`/`todo!`/`unreachable!`
branches are errors. -/
def ConnectionH2.process (c : ConnectionH2) (ss : Streams) (idx : Nat) (rid : Nat) :
    Except String (ConnectionH2 × Streams) :=
  match c.state, c.position with
  | .ClientPreface, .Client => .ok (c, ss)
  | .ClientPreface, .Server =>
    let kawa := getFrontBuf ss idx c.position
    match preface kawa.storage.data with
    | .error e => .error e
    | .ok i =>
      match frame_header i with
      | .ok (_, hdr) =>
        match hdr.frame_type, hdr.flags, hdr.stream_id with
        | .Settings, 0, 0 =>
          let ss := setFrontBuf ss idx c.position
            { kawa with storage := kawa.storage.clear }
          .ok ({ c with
                 state := .ClientSettings
                 expect := some (0, hdr.payload_len) }, ss)
        | _, _, _ => .error "todo: expected initial SETTINGS header"
      | .error _ => .error "todo: expected initial SETTINGS header"
  | .ClientSettings, .Server =>
    let kawa := getFrontBuf ss idx c.position
    let i := kawa.storage.data
    match settings_frame i i.length with
    | .error e => .error e
    | .ok frame =>
      let ss := setFrontBuf ss idx c.position
        { kawa with storage := kawa.storage.clear }
      match c.handle frame ss with
      | .error e => .error e
      | .ok (c, ss) =>
        match ss.streams[0]? with
        | none => .error "index out of bounds"
        | some s0 =>
          let c := { c with state := .ServerSettings }
          let st := s0.back.storage.fill (gen_frame_header
            { payload_len := 6 * 2, frame_type := .Settings, flags := 0, stream_id := 0 })
          let st := st.fill (gen_frame_header
            { payload_len := 0, frame_type := .Settings, flags := 1, stream_id := 0 })
          let s0 := { s0 with back := { s0.back with storage := st } }
          let ss := { ss with streams := ss.streams.set 0 s0 }
          .ok ({ c with readiness := { c.readiness with
                 interest := c.readiness.interest.insertWritable.removeReadable } }, ss)
  | .ServerSettings, .Client => .error "todo: Receive server Settings"
  | .ServerSettings, .Server => .ok (c, ss)
  | .Header, .Server =>
    let kawa := getFrontBuf ss idx c.position
    match frame_header kawa.storage.data with
    | .error e => .error e
    | .ok (_, header) =>
      let ss := setFrontBuf ss idx c.position
        { kawa with storage := kawa.storage.clear }
      let res : Except String (Nat × ConnectionH2 × Streams) :=
        match c.streams.lookup header.stream_id with
        | some g => .ok (g, c, ss)
        | none => c.create_stream header.stream_id ss rid
      match res with
      | .error e => .error e
      | .ok (g, c, ss) =>
        let sid := if header.frame_type = FrameType.Headers then 0 else g
        .ok ({ c with
               expect := some (sid, header.payload_len)
               state := .Frame header }, ss)
  | .Frame header, .Server =>
    let kawa := getFrontBuf ss idx c.position
    match frame_body kawa.storage.data header c.settings.settings_max_frame_size with
    | .error e => .error e
    | .ok frame =>
      let ss := setFrontBuf ss idx c.position
        { kawa with storage := kawa.storage.clear }
      match c.handle frame ss with
      | .error e => .error e
      | .ok (c, ss) => .ok ({ c with state := .Header, expect := some (0, 9) }, ss)
  | _, _ => .error "unreachable"

/-- `ConnectionH2::readable` (lines 360-382 plus the state machine): with an
expectation `(streamId, amount)`, read at most `amount` bytes (`sock` is
what the socket delivers into the presented slice) into that stream's
read-target buffer; a short positive read shrinks the expectation and
returns, a zero read clears the READABLE event, a complete read clears the
expectation and runs the state machine; with no expectation, clear the
READABLE event and return without reading. -/
def ConnectionH2.readable (c : ConnectionH2) (ss : Streams) (sock : List Nat)
    (rid : Nat) : Except String (ConnectionH2 × Streams) :=
  match c.expect with
  | none =>
    .ok ({ c with readiness := { c.readiness with
           event := c.readiness.event.removeReadable } }, ss)
  | some (streamId, amount) =>
    if streamId < ss.streams.length then
      let bytes := sock.take amount
      let size := bytes.length
      if 0 < size then
        let kawa := getFrontBuf ss streamId c.position
        let ss := setFrontBuf ss streamId c.position
          { kawa with storage := kawa.storage.fill bytes }
        if size = amount then
          ConnectionH2.process { c with expect := none } ss streamId rid
        else
          .ok ({ c with expect := some (streamId, amount - size) }, ss)
      else
        .ok ({ c with readiness := { c.readiness with
               event := c.readiness.event.removeReadable } }, ss)
    else .error "index out of bounds"

/-- `ConnectionH2::writable` (lines 497-520).  In the server
`ServerSettings` state the source writes `streams[0].back` to the socket,
then consumes `available_data()` bytes — the entire buffer — and on the
buffer becoming empty swaps interests, transitions to `Header` and expects
a 9-byte frame header into index 0. -/
def ConnectionH2.writable (c : ConnectionH2) (ss : Streams) :
    Except String (ConnectionH2 × Streams) :=
  match c.state, c.position with
  | .ClientPreface, .Client => .error "todo: Send PRI + client Settings"
  | .ServerSettings, .Server =>
    match ss.streams[0]? with
    | none => .error "index out of bounds"
    | some s0 =>
      let size := s0.back.storage.availableData
      let st := s0.back.storage.consume size
      let s0 := { s0 with back := { s0.back with storage := st } }
      let ss := { ss with streams := ss.streams.set 0 s0 }
      if st.isEmpty then
        .ok ({ c with
               readiness := { c.readiness with
                 interest := c.readiness.interest.removeWritable.insertReadable }
               state := .Header
               expect := some (0, 9) }, ss)
      else .ok (c, ss)
  | _, _ => .error "unreachable"

/-! ### The H1 engine -/

/-- `ConnectionH1` (lines 35-40), socket abstracted away. -/
structure ConnectionH1 where
  position : Position
  readiness : Readiness
  stream : Nat
deriving DecidableEq, Repr

/-- `SocketResult` of the socket capability (§6). -/
inductive SocketResult where
  | Continue
  | Closed
  | Error
  | WouldBlock
deriving DecidableEq, Repr

/-- `ConnectionH1::readable` (lines 573-598): read into the bound stream's
buffer (`front` for a client, `back` for a server); a zero-size read clears
the READABLE event; `Closed`/`Error` statuses are `todo!()` stubs;
`WouldBlock` clears the READABLE event; then the external kawa H1 parser
(the oracle `parse`) runs, and if it reports the message terminated the
READABLE interest is dropped. -/
def ConnectionH1.readable (c : ConnectionH1) (ss : Streams) (sock : List Nat)
    (status : SocketResult) (parse : Kawa → Kawa) :
    Except String (ConnectionH1 × Streams) :=
  match ss.streams[c.stream]? with
  | none => .error "index out of bounds"
  | some s =>
    let kawa := match c.position with
      | .Client => s.front
      | .Server => s.back
    let size := sock.length
    let kawa := if 0 < size then { kawa with storage := kawa.storage.fill sock }
      else kawa
    let c := if 0 < size then c
      else { c with readiness := { c.readiness with
             event := c.readiness.event.removeReadable } }
    let step : Except String ConnectionH1 :=
      match status with
      | .Continue => .ok c
      | .Closed => .error "todo: Closed"
      | .Error => .error "todo: Error"
      | .WouldBlock => .ok { c with readiness := { c.readiness with
          event := c.readiness.event.removeReadable } }
    match step with
    | .error e => .error e
    | .ok c =>
      let kawa := parse kawa
      let c := if kawa.terminated then
          { c with readiness := { c.readiness with
            interest := c.readiness.interest.removeReadable } }
        else c
      let s := match c.position with
        | .Client => { s with front := kawa }
        | .Server => { s with back := kawa }
      .ok (c, { ss with streams := ss.streams.set c.stream s })

/-! ### Concrete instances used by witnesses -/

/-- A quiescent one-connection system: no events, no backends. -/
def trivModel : LoopModel Unit :=
  { frontReadiness := fun _ => ⟨RBits.empty, RBits.empty⟩
    backendTokens := []
    backendReadiness := fun _ _ => ⟨RBits.empty, RBits.empty⟩
    frontReadable := id
    frontWritable := id
    backendReadable := fun _ => id
    backendWritable := fun _ => id }

/-- The quiescent system with HUP reported on the frontend. -/
def hupModel : LoopModel Unit :=
  { trivModel with frontReadiness := fun _ => ⟨RBits.empty, ⟨false, false, true, false⟩⟩ }

/-! ### The readiness loop: claims C1 and C2 -/

theorem muxLoop_spec (m : LoopModel σ) : ∀ (n : Nat) (s : σ),
    (muxLoop m n s).iterations ≤ n ∧
    ((muxLoop m n s).exitKind = .cap →
      (muxLoop m n s).infiniteLoopIncr = 1 ∧ (muxLoop m n s).result = .Close) ∧
    ((muxLoop m n s).exitKind = .quiesce → (muxLoop m n s).result = .Continue) := by
  intro n
  induction n with
  | zero => intro s; exact ⟨Nat.le_refl 0, fun _ => ⟨rfl, rfl⟩, fun h => by cases h⟩
  | succ n ih =>
    intro s
    cases hb : backendsBad m (muxPass m s).1 with
    | true =>
      simp only [muxLoop, hb, if_true]
      refine ⟨Nat.succ_le_succ (Nat.zero_le n), ?_, ?_⟩ <;> (intro h; exact nomatch h)
    | false =>
      cases hd : (muxPass m s).2 with
      | true =>
        have h := ih (muxPass m s).1
        simp only [muxLoop, hb, hd, Bool.false_eq_true, if_false, if_true]
        exact ⟨Nat.succ_le_succ h.1, h.2.1, h.2.2⟩
      | false =>
        simp only [muxLoop, hb, hd, Bool.false_eq_true, if_false]
        refine ⟨Nat.succ_le_succ (Nat.zero_le n), ?_, ?_⟩
        · intro h; exact nomatch h
        · intro _; trivial

/-- C1: when the frontend does not report HUP at entry, `Mux::ready` runs
its readiness loop at most 100 000 iterations; reaching the iteration cap
increments `http.infinite_loop.error` once and returns `Close`; a pass that
does no work exits the loop and returns `Continue`. -/
theorem mux_ready_loop_budget (m : LoopModel σ) (s : σ)
    (h : ((m.frontReadiness s).event).hup = false) :
    (muxReady m s).iterations ≤ 100000 ∧
    ((muxReady m s).exitKind = .cap →
      (muxReady m s).infiniteLoopIncr = 1 ∧ (muxReady m s).result = .Close) ∧
    ((muxReady m s).exitKind = .quiesce → (muxReady m s).result = .Continue) := by
  unfold muxReady
  rw [h]
  simp only [Bool.false_eq_true, if_false]
  exact muxLoop_spec m 100000 s

/-- Witness for C1 on the quiescent one-connection system. -/
theorem mux_ready_loop_budget_witness :
    ((trivModel.frontReadiness ()).event).hup = false ∧
    ((muxReady trivModel ()).iterations ≤ 100000 ∧
    ((muxReady trivModel ()).exitKind = .cap →
      (muxReady trivModel ()).infiniteLoopIncr = 1 ∧
      (muxReady trivModel ()).result = .Close) ∧
    ((muxReady trivModel ()).exitKind = .quiesce →
      (muxReady trivModel ()).result = .Continue)) :=
  ⟨rfl, mux_ready_loop_budget trivModel () rfl⟩

/-- C2: when the frontend event mask has HUP at entry, `Mux::ready` returns
`Close` at once: zero loop iterations, so no backend `readable`/`writable`
call runs and the system state is returned unchanged. -/
theorem mux_ready_front_hup (m : LoopModel σ) (s : σ)
    (h : ((m.frontReadiness s).event).hup = true) :
    muxReady m s = ⟨s, .Close, 0, 0, .frontHup⟩ := by
  unfold muxReady
  rw [h]
  simp

/-- Witness for C2 on the quiescent system with frontend HUP raised. -/
theorem mux_ready_front_hup_witness :
    ((hupModel.frontReadiness ()).event).hup = true ∧
    muxReady hupModel () = ⟨(), .Close, 0, 0, .frontHup⟩ :=
  ⟨rfl, mux_ready_front_hup hupModel () rfl⟩

/-! ### Stream creation: claim C3 -/

/-- C3: `Streams::create_stream` either checks two regions out of the pool,
appends one new `Stream` and returns its index (the previous length), or
fails with `BufferCapacityReached` leaving the stream vector and the pool —
any partially checked-out region having been dropped back — unchanged; in
particular a dead pool (failed weak upgrade) fails that way. -/
theorem create_stream_spec (ss : Streams) (rid w : Nat) :
    Streams.create_stream ss rid w =
      match ss.pool with
      | none => (.error .BufferCapacityReached, ss)
      | some p =>
        if 2 ≤ p.available then
          (.ok ss.streams.length,
           { streams := ss.streams ++
               [{ request_id := rid, window := u32AsI32 w,
                  front := Kawa.new .Request, back := Kawa.new .Response }]
             pool := some ⟨p.available - 2⟩ })
        else (.error .BufferCapacityReached, ss) := by
  obtain ⟨streams, pool⟩ := ss
  cases pool with
  | none => rfl
  | some p =>
    obtain ⟨avail⟩ := p
    match avail with
    | 0 => rfl
    | 1 => rfl
    | n + 2 =>
      simp only [Streams.create_stream, Pool.checkout]
      rw [if_pos (by omega)]
      simp [Nat.add_sub_cancel]

/-! ### H2 fixtures for the panic-path claims -/

/-- The readiness a fresh H2 server connection holds (lines 141-144) once a
READABLE event arrived. -/
def h2ServerReadiness : Readiness :=
  ⟨⟨true, false, true, true⟩, ⟨true, false, false, false⟩⟩

/-- A server H2 connection as `new_h2_server` builds it (lines 137-151). -/
def h2PrefaceConn : ConnectionH2 :=
  { expect := some (0, 24 + 9), position := .Server
    readiness := h2ServerReadiness, settings := {}
    state := .ClientPreface, streams := [(0, 0)] }

/-- The same connection once the handshake reached the `Header` state. -/
def h2HeaderConn : ConnectionH2 :=
  { h2PrefaceConn with state := .Header, expect := none }

/-- A stream table holding only the session-scoped stream 0. -/
def ssOne : Streams := { streams := [defaultStream], pool := some ⟨8⟩ }

/-- A stream table whose pool refuses every checkout. -/
def ssExhausted : Streams := { streams := [defaultStream], pool := some ⟨0⟩ }

/-- A stream table with the session stream and one data stream of the given
window. -/
def ssWin (w : Int) : Streams :=
  { streams := [defaultStream, { defaultStream with window := w }]
    pool := some ⟨8⟩ }

/-! ### Claim C4: stream refusal under pool pressure -/

/-- C4 (code bug): with the pool at capacity, `ConnectionH2::create_stream`
for unknown wire stream id 3 does not emit RST_STREAM with error code 7 and
keep the session open as the spec requires — it hits the `panic!` arm
(modelled as an error), aborting instead of refusing the stream. -/
theorem h2_create_stream_pool_refused :
    ConnectionH2.create_stream h2HeaderConn 3 ssExhausted 42 =
      .error "BufferCapacityReached" := rfl

/-! ### Claim C5: SETTINGS application -/

/-- C5 (code bug): `ConnectionH2::handle` applies SETTINGS identifiers
1..=6 to the corresponding fields, but an identifier outside 1..=6 (here 7)
hits the `panic!("setting_id: ...")` arm instead of being ignored. -/
theorem h2_settings_unknown_id_panics :
    ConnectionH2.handle h2HeaderConn
        (.Settings [⟨1, 11⟩, ⟨2, 0⟩, ⟨3, 33⟩, ⟨4, 44⟩, ⟨5, 55⟩, ⟨6, 66⟩]) ssOne =
      .ok ({ h2HeaderConn with settings := ⟨11, false, 33, 44, 55, 66⟩ }, ssOne) ∧
    ConnectionH2.handle h2HeaderConn (.Settings [⟨7, 0⟩]) ssOne =
      .error "setting_id" :=
  ⟨rfl, rfl⟩

/-! ### Claim C6: WINDOW_UPDATE accounting -/

/-- C6 (code bug): `ConnectionH2::handle` on WINDOW_UPDATE indexes the
stream vector directly with the wire stream id and adds the increment with
release-mode `i32` wraparound: from window 0, an increment of 65535 gives
65535, and a further increment of 2 147 418 113 (sum 2³¹) silently wraps to
−2³¹ and still succeeds, where the claim requires a flow-control error and
GOAWAY. -/
theorem h2_window_update_wraps :
    ConnectionH2.handle h2HeaderConn (.WindowUpdate ⟨1, 65535⟩) (ssWin 0) =
      .ok (h2HeaderConn, ssWin 65535) ∧
    ConnectionH2.handle h2HeaderConn (.WindowUpdate ⟨1, 2147418113⟩) (ssWin 65535) =
      .ok (h2HeaderConn, ssWin (-2147483648)) := by
  constructor <;> rfl

/-! ### Claim C7: preface validation -/

/-- C7 (code bug): a server H2 connection in `ClientPreface` that reads 24
bytes differing from the canonical preface — or a valid preface followed by
a first frame header that is not SETTINGS with flags 0 on stream 0 (here a
PING header) — hits `panic!`/`todo!` (modelled as errors) rather than
closing the connection with a protocol error. -/
theorem h2_bad_preface_panics :
    ConnectionH2.readable h2PrefaceConn ssOne
        (List.replicate 24 65 ++ [0, 0, 0, 4, 0, 0, 0, 0, 0]) 0 =
      .error "invalid preface" ∧
    ConnectionH2.readable h2PrefaceConn ssOne
        (prefaceBytes ++ [0, 0, 0, 6, 0, 0, 0, 0, 0]) 0 =
      .error "todo: expected initial SETTINGS header" := by
  constructor <;> rfl

/-! ### Claim C10: the expectation register of `ConnectionH2::readable` -/

theorem getFrontBuf_setFrontBuf (ss : Streams) (i : Nat) (p : Position) (k : Kawa)
    (h : i < ss.streams.length) : getFrontBuf (setFrontBuf ss i p k) i p = k := by
  have hs : ss.streams[i]? = some ss.streams[i] := List.getElem?_eq_getElem h
  unfold setFrontBuf getFrontBuf
  rw [hs]
  simp only [List.getElem?_set_self h, Option.getD_some]
  cases p <;> rfl

theorem setFrontBuf_getElem_ne (ss : Streams) (i : Nat) (p : Position) (k : Kawa)
    (j : Nat) (h : j ≠ i) : (setFrontBuf ss i p k).streams[j]? = ss.streams[j]? := by
  unfold setFrontBuf
  cases hs : ss.streams[i]? with
  | none => rfl
  | some s => exact List.getElem?_set_ne fun e => h e.symm

/-- C10: `ConnectionH2::readable` with expectation `Some((i, n))`: a read
delivering `size` bytes with `0 < size < n` appends them to stream `i`'s
read-target buffer, shrinks the expectation to `Some((i, n - size))` and
returns with the connection otherwise unchanged (no frame parsed or
dispatched: state, settings, readiness and the wire-to-global map are those
of the record update that only changes `expect`) and every other stream
untouched; a zero-byte read clears the READABLE event and changes nothing
else; with expectation `None` the READABLE event is cleared and nothing is
read. -/
theorem h2_readable_expectation (c : ConnectionH2) (ss : Streams) (sock : List Nat)
    (rid : Nat) :
    (c.expect = none →
      ConnectionH2.readable c ss sock rid =
        .ok ({ c with readiness := { c.readiness with
               event := c.readiness.event.removeReadable } }, ss)) ∧
    (∀ i n, c.expect = some (i, n) → i < ss.streams.length →
      ((sock.take n).length = 0 →
        ConnectionH2.readable c ss sock rid =
          .ok ({ c with readiness := { c.readiness with
                 event := c.readiness.event.removeReadable } }, ss)) ∧
      (0 < (sock.take n).length → (sock.take n).length < n →
        ∃ ss', ConnectionH2.readable c ss sock rid =
            .ok ({ c with expect := some (i, n - (sock.take n).length) }, ss') ∧
          (getFrontBuf ss' i c.position).storage.data =
            (getFrontBuf ss i c.position).storage.data ++ sock.take n ∧
          ∀ j, j ≠ i → ss'.streams[j]? = ss.streams[j]?)) := by
  constructor
  · intro h
    simp only [ConnectionH2.readable, h]
  · intro i n hexp hlen
    constructor
    · intro h0
      simp only [ConnectionH2.readable, hexp, if_pos hlen, h0]
      simp
    · intro h1 h2
      refine ⟨setFrontBuf ss i c.position
        { getFrontBuf ss i c.position with
          storage := (getFrontBuf ss i c.position).storage.fill (sock.take n) },
        ?_, ?_, ?_⟩
      · simp only [ConnectionH2.readable, hexp, if_pos hlen, if_pos h1,
          if_neg (Nat.ne_of_lt h2)]
      · rw [getFrontBuf_setFrontBuf ss i c.position _ hlen]
        rfl
      · intro j hj
        exact setFrontBuf_getElem_ne ss i c.position _ j hj

/-- Witness for C10: a connection expecting 9 bytes into stream 0 receives
3 of them. -/
theorem h2_readable_expectation_witness :
    (({ h2HeaderConn with expect := some (0, 9) } : ConnectionH2).expect = some (0, 9)) ∧
    (0 : Nat) < ssOne.streams.length ∧
    (∃ ss', ConnectionH2.readable { h2HeaderConn with expect := some (0, 9) } ssOne
          [1, 2, 3] 0 =
        .ok ({ { h2HeaderConn with expect := some (0, 9) } with
               expect := some (0, 9 - ([1, 2, 3].take 9).length) }, ss') ∧
      (getFrontBuf ss' 0 ({ h2HeaderConn with expect := some (0, 9) } : ConnectionH2).position).storage.data =
        (getFrontBuf ssOne 0 ({ h2HeaderConn with expect := some (0, 9) } : ConnectionH2).position).storage.data
          ++ [1, 2, 3].take 9 ∧
      ∀ j, j ≠ 0 → ss'.streams[j]? = ssOne.streams[j]?) :=
  ⟨rfl, by decide,
    ((h2_readable_expectation { h2HeaderConn with expect := some (0, 9) } ssOne
      [1, 2, 3] 0).2 0 9 rfl (by decide)).2 (by decide) (by decide)⟩

/-! ### Claim C9: H1 readable interest management -/

/-- The buffer `ConnectionH1::readable` hands to the kawa H1 parser: the
bound stream's read-target buffer, filled with the bytes the socket
delivered (a zero-size read leaves it untouched). -/
def h1ReadBuf (c : ConnectionH1) (s : Stream) (sock : List Nat) : Kawa :=
  let kawa := match c.position with
    | .Client => s.front
    | .Server => s.back
  if 0 < sock.length then { kawa with storage := kawa.storage.fill sock } else kawa

/-- C9: after `ConnectionH1::readable` (socket status `Continue` or
`WouldBlock`; `Closed`/`Error` are `todo!()` stubs), if the parser reports
the message terminated then READABLE is removed from the interest mask —
hence also from the effective (interest-filtered) readiness, so the
readiness loop dispatches no further `readable` for this connection; if the
parser does not report termination the interest mask is unchanged; and a
zero-byte read or a `WouldBlock` status clears the READABLE event bit. -/
theorem h1_readable_terminated_interest (c : ConnectionH1) (ss : Streams)
    (sock : List Nat) (status : SocketResult) (parse : Kawa → Kawa) (s : Stream)
    (hs : ss.streams[c.stream]? = some s)
    (hstatus : status = SocketResult.Continue ∨ status = SocketResult.WouldBlock) :
    ∃ c' ss', ConnectionH1.readable c ss sock status parse = .ok (c', ss') ∧
      ((parse (h1ReadBuf c s sock)).terminated = true →
        c'.readiness.interest.readable = false ∧
        (c'.readiness.filterInterest).readable = false) ∧
      ((parse (h1ReadBuf c s sock)).terminated = false →
        c'.readiness.interest = c.readiness.interest) ∧
      ((sock = [] ∨ status = SocketResult.WouldBlock) →
        c'.readiness.event.readable = false) := by
  rcases hstatus with hst | hst <;> subst hst <;>
    by_cases hlen : 0 < sock.length <;>
    cases ht : (parse (h1ReadBuf c s sock)).terminated <;>
    simp only [h1ReadBuf, hlen, if_true, if_false, reduceIte] at ht <;>
    simp only [ConnectionH1.readable, hs, hlen, ht, if_true, if_false, reduceIte,
      Bool.false_eq_true] <;>
    refine ⟨_, _, rfl, ?_, ?_, ?_⟩ <;>
    simp_all [Readiness.filterInterest, RBits.inter, RBits.removeReadable,
      List.length_pos]

/-- An H1 server connection bound to global stream 0, as `new_h1_server`
builds it, once a READABLE event arrived. -/
def h1ServerConn : ConnectionH1 :=
  { position := .Server, readiness := h2ServerReadiness, stream := 0 }

/-- A parse oracle standing for a kawa run that terminates the message. -/
def markTerminated (k : Kawa) : Kawa := { k with terminated := true }

/-- Witness for C9: a complete request arrives in one read and the parser
reports termination. -/
theorem h1_readable_terminated_interest_witness :
    ssOne.streams[h1ServerConn.stream]? = some defaultStream ∧
    (SocketResult.Continue = SocketResult.Continue ∨
      SocketResult.Continue = SocketResult.WouldBlock) ∧
    (∃ c' ss', ConnectionH1.readable h1ServerConn ssOne [71, 69, 84]
        SocketResult.Continue markTerminated = .ok (c', ss') ∧
      ((markTerminated (h1ReadBuf h1ServerConn defaultStream [71, 69, 84])).terminated = true →
        c'.readiness.interest.readable = false ∧
        (c'.readiness.filterInterest).readable = false) ∧
      ((markTerminated (h1ReadBuf h1ServerConn defaultStream [71, 69, 84])).terminated = false →
        c'.readiness.interest = h1ServerConn.readiness.interest) ∧
      (([71, 69, 84] = ([] : List Nat) ∨ SocketResult.Continue = SocketResult.WouldBlock) →
        c'.readiness.event.readable = false)) :=
  ⟨rfl, Or.inl rfl,
    h1_readable_terminated_interest h1ServerConn ssOne [71, 69, 84]
      SocketResult.Continue markTerminated defaultStream rfl (Or.inl rfl)⟩

/-! ### Claim C8: the server settings exchange -/

theorem applySettings_ok (entries : List SettingsEntry) :
    ∀ s : H2Settings, (∀ e ∈ entries, 1 ≤ e.identifier ∧ e.identifier ≤ 6) →
    ∃ s', applySettings s entries = .ok s' := by
  induction entries with
  | nil => exact fun s _ => ⟨s, rfl⟩
  | cons e es ih =>
    intro s h
    have he := h e (List.mem_cons_self e es)
    have hrest : ∀ x ∈ es, 1 ≤ x.identifier ∧ x.identifier ≤ 6 :=
      fun x hx => h x (List.mem_cons_of_mem e hx)
    have hcase : e.identifier = 1 ∨ e.identifier = 2 ∨ e.identifier = 3 ∨
        e.identifier = 4 ∨ e.identifier = 5 ∨ e.identifier = 6 := by omega
    have hstep : ∃ s1, applySetting s e = .ok s1 := by
      rcases hcase with h1 | h1 | h1 | h1 | h1 | h1 <;>
        exact ⟨_, by simp only [applySetting, h1]; rfl⟩
    obtain ⟨s1, hs1⟩ := hstep
    obtain ⟨s', hs'⟩ := ih s1 hrest
    exact ⟨s', by simp only [applySettings, hs1, hs']⟩

/-- C8: a server H2 connection completing the `ClientSettings` read applies
the client's settings, serializes into stream 0's response buffer a local
SETTINGS frame header (payload_len 12, flags 0, stream 0) followed by a
SETTINGS-ACK header (payload_len 0, flags 1, stream 0), drops READABLE
interest, raises WRITABLE interest and moves to `ServerSettings`; the
subsequent writable call drains that buffer, swaps the interests back,
moves to `Header` and expects 9 bytes into index 0. -/
theorem h2_client_settings_exchange
    (c : ConnectionH2) (ss : Streams) (sock : List Nat) (rid : Nat)
    (n : Nat) (entries : List SettingsEntry)
    (hpos : c.position = .Server)
    (hstate : c.state = .ClientSettings)
    (hexp : c.expect = some (0, n))
    (hlen : 0 < ss.streams.length)
    (hn : 0 < n)
    (hread : (sock.take n).length = n)
    (hparse : settingsEntries
      ((getFrontBuf ss 0 Position.Server).storage.data ++ sock.take n) = .ok entries)
    (hids : ∀ e ∈ entries, 1 ≤ e.identifier ∧ e.identifier ≤ 6) :
    ∃ c' ss' s', ConnectionH2.readable c ss sock rid = .ok (c', ss') ∧
      applySettings c.settings entries = .ok c'.settings ∧
      c'.state = .ServerSettings ∧
      c'.expect = none ∧
      c'.readiness.interest = c.readiness.interest.insertWritable.removeReadable ∧
      c'.readiness.event = c.readiness.event ∧
      ss'.streams[0]? = some s' ∧
      s'.back.storage.data =
        ((ss.streams[0]?).getD defaultStream).back.storage.data
          ++ gen_frame_header
              { payload_len := 12, frame_type := .Settings, flags := 0, stream_id := 0 }
          ++ gen_frame_header
              { payload_len := 0, frame_type := .Settings, flags := 1, stream_id := 0 } ∧
      (∃ c'' ss'', ConnectionH2.writable c' ss' = .ok (c'', ss'') ∧
        c''.state = .Header ∧
        c''.expect = some (0, 9) ∧
        c''.readiness.interest = c'.readiness.interest.removeWritable.insertReadable ∧
        (ss''.streams[0]?).map (fun s => s.back.storage.data) = some []) := by
  obtain ⟨exp, pos, rdn, stg, st, map⟩ := c
  simp only at hpos hstate hexp
  subst hpos hstate hexp
  obtain ⟨streams, pool⟩ := ss
  cases streams with
  | nil => simp at hlen
  | cons s0 rest =>
    simp only [getFrontBuf, List.getElem?_cons_zero, Option.getD_some,
      Stream.frontBuf] at hparse
    obtain ⟨stg', happ⟩ := applySettings_ok entries stg hids
    simp only [ConnectionH2.readable, ConnectionH2.process, getFrontBuf, setFrontBuf,
      ConnectionH2.handle, settings_frame, Storage.fill, Storage.clear,
      List.getElem?_cons_zero, Option.getD_some, List.set_cons_zero,
      List.length_cons, Nat.zero_lt_succ, if_true, hread, if_pos hn,
      Stream.frontBuf, Stream.setFrontBuf]
    simp only [hparse, happ]
    simp only [List.getElem?_cons_zero, Option.getD_some, List.set_cons_zero]
    refine ⟨_, _,
      { s0 with
        front := { s0.front with storage := ⟨[]⟩ }
        back := { s0.back with storage := ⟨s0.back.storage.data
          ++ gen_frame_header
              { payload_len := 6 * 2, frame_type := .Settings, flags := 0, stream_id := 0 }
          ++ gen_frame_header
              { payload_len := 0, frame_type := .Settings, flags := 1, stream_id := 0 }⟩ } },
      rfl, rfl, rfl, rfl, rfl, rfl, ?_, rfl, ?_⟩
    · simp only [List.getElem?_cons_zero]
    simp only [ConnectionH2.writable, List.getElem?_cons_zero,
      Storage.availableData, Storage.consume, List.drop_length,
      Storage.isEmpty, List.isEmpty_nil, if_true, List.set_cons_zero]
    refine ⟨_, _, rfl, rfl, rfl, rfl, ?_⟩
    simp

/-- The H2 server connection once it reached `ClientSettings`, expecting a
6-byte settings payload. -/
def csConn : ConnectionH2 :=
  { h2PrefaceConn with state := .ClientSettings, expect := some (0, 6) }

/-- Witness for C8: a single-entry client SETTINGS payload (identifier 4,
value 100) completes the exchange. -/
theorem h2_client_settings_exchange_witness :
    csConn.position = Position.Server ∧
    csConn.state = H2State.ClientSettings ∧
    csConn.expect = some (0, 6) ∧
    (0 : Nat) < ssOne.streams.length ∧
    (([0, 4, 0, 0, 0, 100] : List Nat).take 6).length = 6 ∧
    settingsEntries ((getFrontBuf ssOne 0 Position.Server).storage.data
      ++ ([0, 4, 0, 0, 0, 100] : List Nat).take 6) =
      .ok [{ identifier := 4, value := 100 }] ∧
    (∃ c' ss' s', ConnectionH2.readable csConn ssOne [0, 4, 0, 0, 0, 100] 0 =
        .ok (c', ss') ∧
      applySettings csConn.settings [{ identifier := 4, value := 100 }] =
        .ok c'.settings ∧
      c'.state = .ServerSettings ∧
      c'.expect = none ∧
      c'.readiness.interest = csConn.readiness.interest.insertWritable.removeReadable ∧
      c'.readiness.event = csConn.readiness.event ∧
      ss'.streams[0]? = some s' ∧
      s'.back.storage.data =
        ((ssOne.streams[0]?).getD defaultStream).back.storage.data
          ++ gen_frame_header
              { payload_len := 12, frame_type := .Settings, flags := 0, stream_id := 0 }
          ++ gen_frame_header
              { payload_len := 0, frame_type := .Settings, flags := 1, stream_id := 0 } ∧
      (∃ c'' ss'', ConnectionH2.writable c' ss' = .ok (c'', ss'') ∧
        c''.state = .Header ∧
        c''.expect = some (0, 9) ∧
        c''.readiness.interest = c'.readiness.interest.removeWritable.insertReadable ∧
        (ss''.streams[0]?).map (fun s => s.back.storage.data) = some [])) :=
  ⟨rfl, rfl, rfl, by decide, by decide, rfl,
    h2_client_settings_exchange csConn ssOne [0, 4, 0, 0, 0, 100] 0 6
      [{ identifier := 4, value := 100 }] rfl rfl rfl (by decide) (by decide)
      (by decide) rfl (by decide)⟩

end Mux
